import Mathlib

/-!
Shallow embedding of the session-lifecycle and protocol-dispatch layer of the
Waitrose grocery-API client (`waitrose.ts`, `src/config.ts`), together with a
spec-level model of the re-authentication wrapper (`withAuth`, whose source file
`src/auth.ts` is referenced by the CLI but not present in the repository).

Nullable JavaScript fields are modelled as `Option`; JS truthiness of strings
(`null`/`undefined` and `""` are falsy) and of arrays accessed via
`?.length` is modelled explicitly where the code relies on it.  Network
effects are modelled by passing the decoded HTTP response (status, raw text,
parsed body) as an explicit argument to the function that consumes it, and
mutation of the client object is modelled as explicit state passing on
`ClientState`.
-/

namespace Waitrose

/-- JS truthiness of a nullable string field: `null`/`undefined` and the empty
string are falsy, every other string is truthy. -/
def truthyStr : Option String → Bool
  | none => false
  | some s => !(s == "")

/-- The Fetch API's `response.ok`: the HTTP status lies in [200, 300). -/
def httpOk (status : Nat) : Bool := decide (200 ≤ status) && decide (status < 300)

/-- `ApiFailure` from waitrose.ts: a reported-but-not-fatal backend failure. -/
structure ApiFailure where
  type : String
  message : String
deriving Repr, DecidableEq

/-- The decoded `generateSession` payload of the NewSession mutation
(waitrose.ts `login`): session fields plus an optional `failures` list. -/
structure SessionResp where
  accessToken : String
  refreshToken : String
  customerId : String
  customerOrderId : String
  customerOrderState : String
  defaultBranchId : String
  expiresIn : Int
  failures : Option (List ApiFailure)
deriving Repr, DecidableEq

/-- The mutable private fields of `WaitroseClient` (waitrose.ts lines 469-473),
each initialised to `null`. -/
structure ClientState where
  accessToken : Option String
  refreshToken : Option String
  customerId : Option String
  customerOrderId : Option String
  defaultBranchId : Option String
deriving Repr, DecidableEq

/-- A freshly constructed `WaitroseClient`: every session field is `null`. -/
def initClient : ClientState :=
  { accessToken := none, refreshToken := none, customerId := none,
    customerOrderId := none, defaultBranchId := none }

/-- `failures.map(f => f.message).join(", ")`. -/
def joinFailureMessages (fs : List ApiFailure) : String :=
  String.intercalate ", " (fs.map (·.message))

/-- `WaitroseClient.login` (waitrose.ts lines 565-583), given the decoded
`generateSession` payload: if `session.failures?.length` is truthy (a non-null,
non-empty list) it throws `Login failed: ...` before any field assignment;
otherwise it assigns the five session fields and returns the session. -/
def loginStep (resp : SessionResp) (s : ClientState) :
    ClientState × Except String SessionResp :=
  match resp.failures with
  | some (f :: fs) =>
      (s, .error ("Login failed: " ++ joinFailureMessages (f :: fs)))
  | _ =>
      ({ accessToken := some resp.accessToken,
         refreshToken := some resp.refreshToken,
         customerId := some resp.customerId,
         customerOrderId := some resp.customerOrderId,
         defaultBranchId := some resp.defaultBranchId }, .ok resp)

/-- `WaitroseClient.logout` (waitrose.ts lines 600-606): it awaits the
DeleteSession RPC first; if that throws, the error propagates and no field is
assigned.  On RPC success it nulls `accessToken`, `refreshToken`, `customerId`
and `customerOrderId` (and no other field). -/
def logoutStep (rpc : Except String Unit) (s : ClientState) :
    ClientState × Except String Unit :=
  match rpc with
  | .error e => (s, .error e)
  | .ok _ =>
      ({ s with accessToken := none, refreshToken := none,
                customerId := none, customerOrderId := none }, .ok ())

/-- `WaitroseClient.isAuthenticated` (waitrose.ts line 595): `!!this.accessToken`. -/
def isAuthenticated (s : ClientState) : Bool := truthyStr s.accessToken

/-- The session-mutating public operations of `WaitroseClient`, with the
decoded outcome of the network call the operation performs. -/
inductive ClientEvent where
  | login (resp : SessionResp)
  | logout (rpc : Except String Unit)
deriving Repr

/-- State reached after one public session operation (errors propagate to the
caller; the state component is what the client object holds afterwards). -/
def applyEvent (s : ClientState) (e : ClientEvent) : ClientState :=
  match e with
  | .login resp => (loginStep resp s).1
  | .logout rpc => (logoutStep rpc s).1

/-- State of the client after a sequence of login/logout calls starting from a
given state. -/
def runEvents (s : ClientState) (es : List ClientEvent) : ClientState :=
  es.foldl applyEvent s

-- ============================================================================
-- GraphQL dispatch (waitrose.ts lines 476-505)
-- ============================================================================

/-- A GraphQL protocol-level error entry. -/
structure GraphQLError where
  message : String
deriving Repr, DecidableEq

/-- The decoded 2xx body of the GraphQL endpoint: an optional top-level
`errors` array next to the (caller-typed, uninterpreted) payload `D`.  The
payload may itself contain nested `failures` lists; `graphql` never looks at
it. -/
structure GraphQLBody (D : Type) where
  errors : Option (List GraphQLError)
  data : D
deriving Repr, DecidableEq

/-- An HTTP response from the GraphQL endpoint: status, raw text (used by the
non-2xx error message) and the JSON body it would decode to. -/
structure GraphQLHttpResponse (D : Type) where
  status : Nat
  text : String
  body : GraphQLBody D
deriving Repr, DecidableEq

/-- `errors.map(e => e.message).join(", ")`. -/
def joinErrorMessages (es : List GraphQLError) : String :=
  String.intercalate ", " (es.map (·.message))

/-- `WaitroseClient.graphql` (waitrose.ts lines 476-505), given the response:
a non-ok status throws `HTTP <status>: <text>`; a 2xx body whose
`errors?.length` is truthy throws `GraphQL Error: <joined messages>`;
otherwise the decoded body is returned unchanged. -/
def graphql {D : Type} (resp : GraphQLHttpResponse D) :
    Except String (GraphQLBody D) :=
  if httpOk resp.status then
    match resp.body.errors with
    | some (e :: es) =>
        .error ("GraphQL Error: " ++ joinErrorMessages (e :: es))
    | _ => .ok resp.body
  else .error ("HTTP " ++ toString resp.status ++ ": " ++ resp.text)

-- ============================================================================
-- REST search/browse dispatch (waitrose.ts lines 508-558)
-- ============================================================================

/-- Base URL of the content/search REST API (waitrose.ts line 14). -/
def SEARCH_API_URL : String :=
  "https://www.waitrose.com/api/content-prod/v2/cms/publish/productcontent"

/-- One element of `componentsAndProducts`: a heterogeneous result wrapper
that may or may not expose a `searchProduct` payload (the payload type is a
parameter; `restApi` never inspects it). -/
structure ComponentOrProduct (P : Type) where
  searchProduct : Option P
deriving Repr, DecidableEq

/-- The raw envelope returned by the search/browse endpoints. -/
structure RawSearchEnvelope (P : Type) where
  totalMatches : Int
  componentsAndProducts : Option (List (ComponentOrProduct P))
deriving Repr, DecidableEq

/-- The normalized result `restApi` returns. -/
structure SearchResult (P : Type) where
  products : List P
  totalMatches : Int
deriving Repr, DecidableEq

/-- An HTTP response from a search/browse endpoint. -/
structure RestHttpResponse (P : Type) where
  status : Nat
  text : String
  raw : RawSearchEnvelope P
deriving Repr, DecidableEq

/-- The `for (const item of raw.componentsAndProducts) if (item.searchProduct)
products.push(item.searchProduct)` loop of `restApi`. -/
def pushProducts {P : Type} : List (ComponentOrProduct P) → List P
  | [] => []
  | it :: rest =>
      match it.searchProduct with
      | some p => p :: pushProducts rest
      | none => pushProducts rest

/-- `this.customerId || "-1"` (waitrose.ts line 523): the held customer id
when it is JS-truthy, the anonymous sentinel `"-1"` otherwise. -/
def restCustomerId (s : ClientState) : String :=
  match s.customerId with
  | some c => if c = "" then "-1" else c
  | none => "-1"

/-- The request URL built by `restApi` (waitrose.ts line 524). -/
def restUrl (s : ClientState) (endpoint : String) : String :=
  SEARCH_API_URL ++ "/" ++ endpoint ++ "/" ++ restCustomerId s ++
    "?clientType=WEB_APP"

/-- `WaitroseClient.restApi` (waitrose.ts lines 508-558), given the response:
a non-ok status throws `HTTP <status>: <text>`; otherwise the raw envelope is
normalized by retaining exactly the `searchProduct` payloads (a missing
`componentsAndProducts` yields no products) together with `totalMatches`. -/
def restApi {P : Type} (resp : RestHttpResponse P) :
    Except String (SearchResult P) :=
  if httpOk resp.status then
    .ok { products :=
            match resp.raw.componentsAndProducts with
            | some items => pushProducts items
            | none => [],
          totalMatches := resp.raw.totalMatches }
  else .error ("HTTP " ++ toString resp.status ++ ": " ++ resp.text)

-- ============================================================================
-- Orders page-size clamping (waitrose.ts lines 721-757)
-- ============================================================================

/-- The `GetOrdersInput` variables object sent by the order-listing queries. -/
structure GetOrdersInput where
  size : Int
  sortBy : String
  statuses : List String
deriving Repr, DecidableEq

/-- Variables built by `getPendingOrders` (waitrose.ts lines 721-736):
`effectiveLimit = Math.min(limit, 15)`, ascending sort, pending statuses. -/
def getPendingOrdersInput (limit : Int) : GetOrdersInput :=
  { size := min limit 15,
    sortBy := "+",
    statuses := ["PAYMENT_FAILED", "PLACED", "FULFIL", "PAID", "PICKED"] }

/-- Variables built by `getPreviousOrders` (waitrose.ts lines 742-757):
`effectiveLimit = Math.min(limit, 15)`, descending sort, completed statuses. -/
def getPreviousOrdersInput (limit : Int) : GetOrdersInput :=
  { size := min limit 15,
    sortBy := "-",
    statuses := ["COMPLETED", "CANCELLED", "REFUND_PENDING"] }

-- ============================================================================
-- Config-store token expiry (src/config.ts lines 68-72)
-- ============================================================================

/-- `WaitroseConfig` from src/config.ts: every field optional. -/
structure WaitroseConfig where
  accessToken : Option String := none
  refreshToken : Option String := none
  customerId : Option String := none
  customerOrderId : Option String := none
  defaultBranchId : Option String := none
  username : Option String := none
  expiresAt : Option Int := none
deriving Repr, DecidableEq

/-- `isTokenExpired` (src/config.ts lines 68-72): `!config.expiresAt` is true
for a missing field and also for the (JS-falsy) timestamp `0`; otherwise the
token counts as expired once `Date.now() > expiresAt - 60000`. -/
def isTokenExpired (now : Int) (config : WaitroseConfig) : Bool :=
  match config.expiresAt with
  | none => true
  | some e => if e = 0 then true else decide (now > e - 60000)

-- ============================================================================
-- Batch product lookup (waitrose.ts lines 985-1028)
-- ============================================================================

/-- A product record returned by the products REST endpoint. -/
structure ProductDetail where
  lineNumber : String
  name : String
deriving Repr, DecidableEq

/-- Decoded response of the products REST endpoint: HTTP status, raw text
(used in the error message), optional `products` array. -/
structure ProductsHttpResponse where
  status : Nat
  text : String
  products : Option (List ProductDetail)
deriving Repr, DecidableEq

/-- `getProductsByLineNumbers` (waitrose.ts lines 985-1028) with the network
modelled as the would-be response: the result is paired with the number of
HTTP requests issued.  An empty `lineNumbers` returns `[]` before any request;
otherwise one GET is issued, a non-ok status throws, and a missing `products`
field is coerced to `[]`. -/
def getProductsByLineNumbers (resp : ProductsHttpResponse)
    (lineNumbers : List String) : Except String (List ProductDetail) × Nat :=
  if lineNumbers.isEmpty then (.ok [], 0)
  else if httpOk resp.status then (.ok (resp.products.getD []), 1)
  else (.error ("HTTP " ++ toString resp.status ++ ": " ++ resp.text), 1)

-- ============================================================================
-- Concrete scenario data
-- ============================================================================

/-- A concrete product payload carrying only an id, for concrete scenarios. -/
structure SearchProduct where
  id : String
deriving Repr, DecidableEq

/-- The scenario envelope of C4: `{totalMatches: 2, componentsAndProducts:
[{searchProduct:{id:"1"}}, {other:{}}, {searchProduct:{id:"2"}}]}` on a 200. -/
def scenarioRestResponse : RestHttpResponse SearchProduct :=
  { status := 200, text := "",
    raw := { totalMatches := 2,
             componentsAndProducts :=
               some [⟨some ⟨"1"⟩⟩, ⟨none⟩, ⟨some ⟨"2"⟩⟩] } }

/-- A concrete GraphQL response whose payload nests a non-empty `failures`
list inside `data`, with a 2xx status and no top-level errors. -/
def scenarioGraphQLResponse : GraphQLHttpResponse (Option (List ApiFailure)) :=
  { status := 200, text := "",
    body := { errors := none,
              data := some [{ type := "BOOKING", message := "slot conflict" }] } }

/-- A client state holding a full session, as after a successful login. -/
def fullSessionState : ClientState :=
  { accessToken := some "tok", refreshToken := some "ref",
    customerId := some "C1", customerOrderId := some "O1",
    defaultBranchId := some "B1" }

/-- A concrete successful `generateSession` payload (no failures). -/
def okSessionResp : SessionResp :=
  { accessToken := "tok", refreshToken := "ref", customerId := "C1",
    customerOrderId := "O1", customerOrderState := "PENDING",
    defaultBranchId := "B1", expiresIn := 900, failures := none }

-- ============================================================================
-- Session-state predicates
-- ============================================================================

/-- The five session fields of the client, in declaration order. -/
def sessionFieldsList (s : ClientState) : List (Option String) :=
  [s.accessToken, s.refreshToken, s.customerId, s.customerOrderId,
   s.defaultBranchId]

/-- The session state is all-or-nothing over all five fields: either every
field is present or every field is absent. -/
def allOrNothing (s : ClientState) : Bool :=
  (sessionFieldsList s).all (·.isSome) || (sessionFieldsList s).all (·.isNone)

/-- The four session fields that `logout` actually clears. -/
def coreFieldsList (s : ClientState) : List (Option String) :=
  [s.accessToken, s.refreshToken, s.customerId, s.customerOrderId]

/-- All-or-nothing over the four fields cleared by `logout`. -/
def coreAllOrNothing (s : ClientState) : Bool :=
  (coreFieldsList s).all (·.isSome) || (coreFieldsList s).all (·.isNone)

/-- A well-formed login response: the backend returns non-empty token and
customer-id strings. -/
def wfResp (resp : SessionResp) : Prop :=
  resp.accessToken ≠ "" ∧ resp.customerId ≠ ""

/-- A well-formed client event: login responses are well-formed. -/
def wfEvent : ClientEvent → Prop
  | .login resp => wfResp resp
  | .logout _ => True

-- ============================================================================
-- Reauthentication policy.
-- The CLI imports `withAuth`/`getAuthenticatedClient` from `src/auth.ts`,
-- which is not part of the repository snapshot; the wrapper is therefore
-- modelled from the specification alone.
-- ============================================================================

/-- Whether `pat` occurs as a contiguous substring of the character list. -/
def listContains (haystack pat : List Char) : Bool :=
  match haystack with
  | [] => pat.isEmpty
  | c :: t => pat.isPrefixOf (c :: t) || listContains t pat

/-- Whether `pat` occurs as a substring of `s`. -/
def strContains (s pat : String) : Bool := listContains s.data pat.data

/-- Modelled from the spec: the 401-shape test of the reauthentication policy
(spec section 4.3, step 4) — the error message contains one of the tokens
`"401"`, `"Unauthorized"` or `"UNAUTHENTICATED"`. -/
def is401Shaped (msg : String) : Bool :=
  strContains msg "401" || strContains msg "Unauthorized" ||
    strContains msg "UNAUTHENTICATED"

/-- A username/password credential bundle. -/
structure Creds where
  username : String
  password : String
deriving Repr, DecidableEq

/-- Modelled from the spec: terminal outcomes of `runWithAuth` (spec
sections 4.3 and 7): no usable credentials, a failed reauthentication cycle
wrapping the retry's error, or a non-auth error surfaced unmodified. -/
inductive RunError where
  | notAuthenticated
  | reauthenticationFailed (wrapped : String)
  | surfaced (e : String)
deriving Repr, DecidableEq

/-- Modelled from the spec: the collaborators `runWithAuth` consults, with
network behaviour made explicit — the session possibly held at entry, the
credentials the CredentialSource would resolve, the outcome of the k-th
`login` call and the outcome of the k-th underlying attempt of the wrapped
operation. -/
structure AuthEnv (A : Type) where
  initialSession : Option SessionResp
  creds : Option Creds
  loginResult : Nat → Creds → Except String SessionResp
  op : Nat → Except String A

/-- Modelled from the spec: steps 2-6 of `runWithAuth` (spec section 4.3),
starting Authenticated.  The second component counts the underlying attempts
of the wrapped operation that were executed.  The first attempt's success is
returned; a 401-shaped failure triggers exactly one fresh login and one
retry, whose failure (or unavailable credentials, or a failed re-login) is
terminal as `reauthenticationFailed`; a non-auth failure is surfaced
unmodified with no retry. -/
def runAttempts {A : Type} (env : AuthEnv A) : Except RunError A × Nat :=
  match env.op 0 with
  | .ok v => (.ok v, 1)
  | .error e =>
      if is401Shaped e then
        match env.creds with
        | none => (.error (.reauthenticationFailed e), 1)
        | some c =>
            match env.loginResult 1 c with
            | .error le => (.error (.reauthenticationFailed le), 1)
            | .ok _ =>
                match env.op 1 with
                | .ok v => (.ok v, 2)
                | .error e2 => (.error (.reauthenticationFailed e2), 2)
      else (.error (.surfaced e), 1)

/-- Modelled from the spec: `runWithAuth` (spec section 4.3).  Starting
Unauthenticated, missing credentials fail with `notAuthenticated` and a
failed initial login propagates, both before any attempt; otherwise (and
when a session is already held) the wrapped operation runs under the
one-retry policy of `runAttempts`. -/
def runWithAuth {A : Type} (env : AuthEnv A) : Except RunError A × Nat :=
  match env.initialSession with
  | some _ => runAttempts env
  | none =>
      match env.creds with
      | none => (.error .notAuthenticated, 0)
      | some c =>
          match env.loginResult 0 c with
          | .error le => (.error (.surfaced le), 0)
          | .ok _ => runAttempts env

/-- A concrete environment whose wrapped operation fails with a 401-shaped
error on every attempt, with working credentials and logins. -/
def scenario401Env : AuthEnv Unit :=
  { initialSession := some okSessionResp,
    creds := some { username := "u", password := "p" },
    loginResult := fun _ _ => .ok okSessionResp,
    op := fun _ => .error "HTTP 401: Unauthorized" }

-- ============================================================================
-- Theorems
-- ============================================================================

/-- The push loop of `restApi` keeps exactly the elements exposing a
`searchProduct`, in their original order. -/
theorem pushProducts_eq_filterMap {P : Type} (l : List (ComponentOrProduct P)) :
    pushProducts l = l.filterMap (fun it => it.searchProduct) := by
  induction l with
  | nil => rfl
  | cons it rest ih =>
      cases h : it.searchProduct with
      | some p => simp [pushProducts, h, ih]
      | none => simp [pushProducts, h, ih]

/-- C4: on every 2xx search/browse response, `restApi` returns exactly the
elements of `componentsAndProducts` exposing a `searchProduct` payload, in
their original order, paired with the envelope's `totalMatches`. -/
theorem restApi_normalizes {P : Type} (resp : RestHttpResponse P)
    (h : httpOk resp.status = true) :
    restApi resp =
      .ok { products := (resp.raw.componentsAndProducts.getD []).filterMap
              (fun it => it.searchProduct),
            totalMatches := resp.raw.totalMatches } := by
  unfold restApi
  rw [if_pos h]
  cases hc : resp.raw.componentsAndProducts with
  | none => simp [hc]
  | some items => simp [hc, pushProducts_eq_filterMap]

/-- Witness for C4: the scenario envelope yields products `[{id:"1"},
{id:"2"}]` (the non-product element is dropped) and `totalMatches = 2`. -/
theorem restApi_normalizes_witness :
    restApi scenarioRestResponse =
      .ok { products := [⟨"1"⟩, ⟨"2"⟩], totalMatches := 2 } := by
  rw [restApi_normalizes scenarioRestResponse rfl]
  rfl

/-- C5: `graphql` throws exactly on a non-2xx status (the error carrying the
status code and raw body) or on a 2xx body with a non-empty top-level
`errors` array (the error carrying the joined messages); otherwise it returns
the decoded body unchanged — the payload, nested failure lists included, is
never inspected. -/
theorem graphql_spec {D : Type} (resp : GraphQLHttpResponse D) :
    (httpOk resp.status = false →
      graphql resp =
        .error ("HTTP " ++ toString resp.status ++ ": " ++ resp.text)) ∧
    (∀ e es, httpOk resp.status = true → resp.body.errors = some (e :: es) →
      graphql resp =
        .error ("GraphQL Error: " ++ joinErrorMessages (e :: es))) ∧
    (httpOk resp.status = true →
      (resp.body.errors = none ∨ resp.body.errors = some []) →
      graphql resp = .ok resp.body) ∧
    ((∃ msg, graphql resp = .error msg) ↔
      (httpOk resp.status = false ∨
       ∃ l, resp.body.errors = some l ∧ l ≠ [])) := by
  refine ⟨?_, ?_, ?_, ?_⟩
  · intro h
    simp [graphql, h]
  · intro e es h1 h2
    simp [graphql, h1, h2]
  · rintro h1 (h2 | h2) <;> simp [graphql, h1, h2]
  · constructor
    · rintro ⟨msg, hmsg⟩
      by_cases h : httpOk resp.status = true
      · cases herr : resp.body.errors with
        | none => simp [graphql, h, herr] at hmsg
        | some l =>
            cases l with
            | nil => simp [graphql, h, herr] at hmsg
            | cons e es => exact Or.inr ⟨e :: es, rfl, by simp⟩
      · exact Or.inl (by simpa using h)
    · rintro (h | ⟨l, hl, hne⟩)
      · exact ⟨"HTTP " ++ toString resp.status ++ ": " ++ resp.text,
          by simp [graphql, h]⟩
      · cases l with
        | nil => exact absurd rfl hne
        | cons e es =>
            by_cases hh : httpOk resp.status = true <;>
              simp [graphql, hh, hl]

/-- Witness for C5: a 2xx response with no top-level errors is returned
unchanged even though a failures list is nested inside the data payload. -/
theorem graphql_spec_witness :
    graphql scenarioGraphQLResponse = .ok scenarioGraphQLResponse.body :=
  (graphql_spec scenarioGraphQLResponse).2.2.1 rfl (Or.inl rfl)

/-- C8: for every limit, `getPendingOrders` and `getPreviousOrders` put
`min(limit, 15)` in the requested page size, so any limit above 15 is clamped
to 15 before the query is sent. -/
theorem orders_size_clamped (limit : Int) :
    (getPendingOrdersInput limit).size = min limit 15 ∧
    (getPreviousOrdersInput limit).size = min limit 15 ∧
    (15 < limit → (getPendingOrdersInput limit).size = 15 ∧
                  (getPreviousOrdersInput limit).size = 15) := by
  refine ⟨rfl, rfl, fun h => ?_⟩
  constructor <;> simp [getPendingOrdersInput, getPreviousOrdersInput,
    min_eq_right (le_of_lt h)]

/-- Witness for C8 at the concrete limit 40. -/
theorem orders_size_clamped_witness :
    (getPendingOrdersInput 40).size = min 40 15 ∧
    (getPreviousOrdersInput 40).size = min 40 15 ∧
    (15 < (40:Int) → (getPendingOrdersInput 40).size = 15 ∧
                     (getPreviousOrdersInput 40).size = 15) :=
  orders_size_clamped 40

/-- C9: for every non-negative current time, `isTokenExpired` returns true
exactly when `expiresAt` is absent or the current time is strictly past
`expiresAt - 60000` (a 60-second buffer before the recorded expiry). -/
theorem isTokenExpired_iff (now : Int) (config : WaitroseConfig)
    (hnow : 0 ≤ now) :
    isTokenExpired now config = true ↔
      (config.expiresAt = none ∨
       ∃ e, config.expiresAt = some e ∧ now > e - 60000) := by
  unfold isTokenExpired
  cases h : config.expiresAt with
  | none => simp
  | some e =>
      by_cases he : e = 0
      · subst he
        simp only [if_pos rfl]
        constructor
        · intro _
          exact Or.inr ⟨0, rfl, by omega⟩
        · intro _
          rfl
      · simp only [if_neg he, decide_eq_true_eq]
        constructor
        · intro hgt
          exact Or.inr ⟨e, rfl, hgt⟩
        · rintro (hc | ⟨e', he', hgt⟩)
          · exact absurd hc (by simp)
          · have : e' = e := by
              have := he'.symm.trans rfl
              injection he' with h2
              omega
            omega

/-- Witness for C9: at time 1000000 with recorded expiry 1030000, the token is
already reported expired (30 s before its expiry, inside the buffer). -/
theorem isTokenExpired_iff_witness :
    isTokenExpired 1000000 { expiresAt := some 1030000 } = true ↔
      (({ expiresAt := some 1030000 } : WaitroseConfig).expiresAt = none ∨
       ∃ e, ({ expiresAt := some 1030000 } : WaitroseConfig).expiresAt = some e ∧
         (1000000:Int) > e - 60000) :=
  isTokenExpired_iff 1000000 { expiresAt := some 1030000 } (by norm_num)

/-- C10: `getProductsByLineNumbers` on the empty line-number list returns the
empty array and issues zero network requests, whatever the network would have
answered. -/
theorem getProductsByLineNumbers_empty (resp : ProductsHttpResponse) :
    getProductsByLineNumbers resp [] = (.ok [], 0) := rfl

/-- C3: a login whose response carries a non-empty `failures` list throws
`Login failed: <joined failure messages>` and leaves every session field of
the client unchanged. -/
theorem login_failures_no_mutation (s : ClientState) (resp : SessionResp)
    (f : ApiFailure) (fs : List ApiFailure)
    (h : resp.failures = some (f :: fs)) :
    loginStep resp s =
      (s, .error ("Login failed: " ++ joinFailureMessages (f :: fs))) := by
  unfold loginStep
  rw [h]

/-- Witness for C3: a concrete invalid-credentials response leaves a fresh
client's (absent) session untouched and reports the joined message. -/
theorem login_failures_no_mutation_witness :
    loginStep { okSessionResp with
                failures := some [{ type := "AUTH", message := "bad password" }] }
        initClient =
      (initClient, .error ("Login failed: " ++
        joinFailureMessages [{ type := "AUTH", message := "bad password" }])) :=
  login_failures_no_mutation initClient
    { okSessionResp with
      failures := some [{ type := "AUTH", message := "bad password" }] }
    { type := "AUTH", message := "bad password" } [] rfl

/-- Counterexample to C2: with a session held and the delete-session RPC
failing, `logout` leaves every field in place — the RPC failure does prevent
local state clearing — and even a successful RPC leaves `defaultBranchId`
populated. -/
theorem logout_best_effort_counterexample :
    (logoutStep (.error "HTTP 500: boom") fullSessionState).1
        = fullSessionState ∧
    fullSessionState.accessToken = some "tok" ∧
    (logoutStep (.ok ()) fullSessionState).1.defaultBranchId = some "B1" :=
  ⟨rfl, rfl, rfl⟩

/-- C2 as amended: `logout` propagates a delete-session RPC failure and
clears nothing in that case; only on RPC success does it clear `accessToken`,
`refreshToken`, `customerId` and `customerOrderId`, leaving `defaultBranchId`
untouched. -/
theorem logout_clears_only_on_rpc_success (s : ClientState) :
    (∀ e, logoutStep (.error e) s = (s, .error e)) ∧
    logoutStep (.ok ()) s =
      ({ s with accessToken := none, refreshToken := none,
                customerId := none, customerOrderId := none }, .ok ()) :=
  ⟨fun _ => rfl, rfl⟩

/-- Counterexample to C6: a successful login followed by a successful logout
leaves `defaultBranchId` populated while the other four fields are absent, so
the five-field session state is not all-or-nothing. -/
theorem session_all_or_nothing_counterexample :
    allOrNothing (runEvents initClient
      [ClientEvent.login okSessionResp, ClientEvent.logout (.ok ())]) = false := by
  decide

/-- `coreAllOrNothing` is preserved by every login/logout step. -/
theorem coreAllOrNothing_applyEvent (s : ClientState) (e : ClientEvent)
    (h : coreAllOrNothing s = true) :
    coreAllOrNothing (applyEvent s e) = true := by
  cases e with
  | login resp =>
      cases hf : resp.failures with
      | none => simp [applyEvent, loginStep, hf, coreAllOrNothing, coreFieldsList]
      | some l =>
          cases l with
          | nil =>
              simp [applyEvent, loginStep, hf, coreAllOrNothing, coreFieldsList]
          | cons f fs =>
              simpa [applyEvent, loginStep, hf] using h
  | logout rpc =>
      cases rpc with
      | error e => simpa [applyEvent, logoutStep] using h
      | ok u => simp [applyEvent, logoutStep, coreAllOrNothing, coreFieldsList]

/-- `coreAllOrNothing` is preserved by every sequence of client events. -/
theorem coreAllOrNothing_runEvents (es : List ClientEvent) (s : ClientState)
    (h : coreAllOrNothing s = true) :
    coreAllOrNothing (runEvents s es) = true := by
  induction es generalizing s with
  | nil => exact h
  | cons e rest ih => exact ih _ (coreAllOrNothing_applyEvent s e h)

/-- C6 as amended: after any sequence of login and logout calls the four
fields `accessToken`, `refreshToken`, `customerId` and `customerOrderId` are
all populated or all absent; `defaultBranchId` is excluded because `logout`
never clears it. -/
theorem core_session_all_or_nothing (es : List ClientEvent) :
    coreAllOrNothing (runEvents initClient es) = true :=
  coreAllOrNothing_runEvents es initClient rfl

/-- Under well-formed login responses, the access token and the customer id
are truthy together in every reachable state. -/
theorem truthy_token_iff_customerId (es : List ClientEvent)
    (hwf : ∀ e ∈ es, wfEvent e) (s : ClientState)
    (h : truthyStr s.accessToken = truthyStr s.customerId) :
    truthyStr (runEvents s es).accessToken
      = truthyStr (runEvents s es).customerId := by
  induction es generalizing s with
  | nil => exact h
  | cons e rest ih =>
      refine ih (fun e' he' => hwf e' (List.mem_cons_of_mem e he')) _ ?_
      have hwe : wfEvent e := hwf e (List.mem_cons_self e rest)
      cases e with
      | login resp =>
          cases hf : resp.failures with
          | none =>
              obtain ⟨ha, hc⟩ := hwe
              simp [applyEvent, loginStep, hf, truthyStr, ha, hc]
          | some l =>
              cases l with
              | nil =>
                  obtain ⟨ha, hc⟩ := hwe
                  simp [applyEvent, loginStep, hf, truthyStr, ha, hc]
              | cons f fs => simpa [applyEvent, loginStep, hf] using h
      | logout rpc =>
          cases rpc with
          | error e => simpa [applyEvent, logoutStep] using h
          | ok u => simp [applyEvent, logoutStep, truthyStr]

/-- C7: in every client state reachable by well-formed logins and logouts,
the search/browse request URL is path-parameterized by the held customer id
when the client is authenticated and by the anonymous sentinel `"-1"` when it
is not. -/
theorem restUrl_uses_customerId (es : List ClientEvent) (endpoint : String)
    (hwf : ∀ e ∈ es, wfEvent e) :
    (isAuthenticated (runEvents initClient es) = true →
      ∃ c, (runEvents initClient es).customerId = some c ∧ c ≠ "" ∧
        restUrl (runEvents initClient es) endpoint =
          SEARCH_API_URL ++ "/" ++ endpoint ++ "/" ++ c ++
            "?clientType=WEB_APP") ∧
    (isAuthenticated (runEvents initClient es) = false →
      restUrl (runEvents initClient es) endpoint =
        SEARCH_API_URL ++ "/" ++ endpoint ++ "/" ++ "-1" ++
          "?clientType=WEB_APP") := by
  have hsync := truthy_token_iff_customerId es hwf initClient rfl
  constructor
  · intro hauth
    have hct : truthyStr (runEvents initClient es).customerId = true := by
      rw [← hsync]
      exact hauth
    cases hc : (runEvents initClient es).customerId with
    | none => rw [hc] at hct; simp [truthyStr] at hct
    | some c =>
        rw [hc] at hct
        have hne : c ≠ "" := by
          intro hceq
          rw [hceq] at hct
          simp [truthyStr] at hct
        exact ⟨c, rfl, hne, by simp [restUrl, restCustomerId, hc, hne]⟩
  · intro hanon
    have hct : truthyStr (runEvents initClient es).customerId = false := by
      rw [← hsync]
      exact hanon
    cases hc : (runEvents initClient es).customerId with
    | none => simp [restUrl, restCustomerId, hc]
    | some c =>
        rw [hc] at hct
        have hceq : c = "" := by
          by_contra hne
          simp [truthyStr, hne] at hct
        simp [restUrl, restCustomerId, hc, hceq]

/-- Witness for C7: after one well-formed login, a search request is
path-parameterized by the held customer id `"C1"`. -/
theorem restUrl_uses_customerId_witness :
    restUrl (runEvents initClient [ClientEvent.login okSessionResp]) "search" =
      SEARCH_API_URL ++ "/" ++ "search" ++ "/" ++ "C1" ++
        "?clientType=WEB_APP" := by
  obtain ⟨c, hc, hne, hurl⟩ :=
    (restUrl_uses_customerId [ClientEvent.login okSessionResp] "search"
      (by
        intro e he
        simp only [List.mem_singleton] at he
        subst he
        exact ⟨by decide, by decide⟩)).1 (by decide)
  have hc1 : (runEvents initClient [ClientEvent.login okSessionResp]).customerId
      = some "C1" := rfl
  rw [hc1] at hc
  injection hc with hceq
  rw [hurl, ← hceq]

/-- `runAttempts` under an always-401-failing operation with working
credentials and logins: two attempts, terminal reauthentication failure
wrapping the retry's error. -/
theorem runAttempts_all401 {A : Type} (env : AuthEnv A) (err : Nat → String)
    (c : Creds) (hc : env.creds = some c)
    (hl : ∀ k, ∃ sess, env.loginResult k c = .ok sess)
    (hop : ∀ k, env.op k = .error (err k))
    (h401 : ∀ k, is401Shaped (err k) = true) :
    runAttempts env = (.error (.reauthenticationFailed (err 1)), 2) := by
  obtain ⟨s1, hs1⟩ := hl 1
  simp only [runAttempts, hop, hc, hs1, h401, if_true]

/-- The outcome of `runWithAuth` depends on the wrapped operation only
through its first two attempts. -/
theorem runWithAuth_two_attempts_congr {A : Type} (env : AuthEnv A)
    (op2 : Nat → Except String A) (h0 : op2 0 = env.op 0)
    (h1 : op2 1 = env.op 1) :
    runWithAuth { env with op := op2 } = runWithAuth env := by
  obtain ⟨isess, creds, lr, op⟩ := env
  simp only at h0 h1
  have hatt : runAttempts ⟨isess, creds, lr, op2⟩
      = runAttempts ⟨isess, creds, lr, op⟩ := by
    simp only [runAttempts, h0, h1]
  cases isess with
  | some sess => exact hatt
  | none =>
      cases creds with
      | none => rfl
      | some c =>
          cases hlr : lr 0 c with
          | error le => simp [runWithAuth, hlr]
          | ok sess => simp [runWithAuth, hlr, hatt]

/-- C1: when the wrapped operation fails with a 401-shaped error on every
attempt (and credentials and logins work), `runWithAuth` executes exactly two
underlying attempts and fails terminally with a reauthentication-failed error
wrapping the retry's error; moreover its outcome depends only on the first
two attempt outcomes, so a third attempt can never be observed. -/
theorem runWithAuth_retries_once {A : Type} (env : AuthEnv A)
    (err : Nat → String) (c : Creds) (hc : env.creds = some c)
    (hl : ∀ k, ∃ sess, env.loginResult k c = .ok sess)
    (hop : ∀ k, env.op k = .error (err k))
    (h401 : ∀ k, is401Shaped (err k) = true) :
    runWithAuth env = (.error (.reauthenticationFailed (err 1)), 2) ∧
    (∀ op2 : Nat → Except String A, op2 0 = env.op 0 → op2 1 = env.op 1 →
      runWithAuth { env with op := op2 } = runWithAuth env) := by
  have hatt := runAttempts_all401 env err c hc hl hop h401
  constructor
  · obtain ⟨s0, hs0⟩ := hl 0
    cases hi : env.initialSession with
    | some sess => simp only [runWithAuth, hi, hatt]
    | none => simp only [runWithAuth, hi, hc, hs0, hatt]
  · intro op2 h0 h1
    exact runWithAuth_two_attempts_congr env op2 h0 h1

/-- Witness for C1: a concrete environment whose operation always fails with
`"HTTP 401: Unauthorized"` runs exactly two attempts and ends in a
reauthentication failure wrapping that error. -/
theorem runWithAuth_retries_once_witness :
    runWithAuth scenario401Env =
      (.error (.reauthenticationFailed "HTTP 401: Unauthorized"), 2) := by
  have h401 : is401Shaped "HTTP 401: Unauthorized" = true := by decide
  exact (runWithAuth_retries_once scenario401Env
    (fun _ => "HTTP 401: Unauthorized") { username := "u", password := "p" }
    rfl (fun _ => ⟨okSessionResp, rfl⟩) (fun _ => rfl) (fun _ => h401)).1

end Waitrose
